import Mathlib

/-!
Shallow embedding of `kicker/pop.py` (the `Population` driver of the
warrickball/cogsworth repository) and proofs about it.

Conventions used throughout:
* pandas `DataFrame`s become lists of row structures; the columns a claim
  depends on are explicit fields, the remaining columns are kept as an
  opaque `others` list so that "NaN in some other column" is expressible.
* machine floats become `ℚ`; the two non-finite values that the code
  branches on are made explicit (`FVal.nan` for table cells tested with
  `np.isnan`, `CVal.inf` for the `np.inf` sentinel of final coordinates).
* astropy `Quantity` values are carried as plain `ℚ` magnitudes in the
  fixed unit the code converts to at that point, so unit conversions are
  identities of the model.
* external collaborators (the COSMIC sampler and `Evolve.evolve` solver,
  the numpy RNG draws, `gala`) are inputs to the functions that call them:
  the embedding receives the value the collaborator returned.
* functions of this repository that are not part of the given sources
  (`kicker/kicks.py`, `kicker/events.py`, `kicker/galaxy.py`) are modelled
  from the spec where a claim needs them; each such definition carries a
  doc comment saying so.
-/

namespace Kicker

/-- A float table cell: either NaN or a finite rational. `np.isnan` is the
only non-finiteness test `pop.py` applies to table cells. -/
inductive FVal where
  | nan : FVal
  | val : ℚ → FVal
deriving DecidableEq, Repr

def FVal.isNan : FVal → Bool
  | .nan => true
  | .val _ => false

/-- A row of the COSMIC `bpp` evolutionary-history table. `bin_num` is both
the column and the DataFrame index (COSMIC indexes `bpp` by binary number);
`sep` is the only column the NaN quarantine inspects; all other columns are
kept opaque in `others`. -/
structure BppRow where
  bin_num : ℕ
  sep : FVal
  others : List FVal
deriving DecidableEq, Repr

/-- A row of the COSMIC `bcm` final-state table. -/
structure BcmRow where
  bin_num : ℕ
  others : List FVal
deriving DecidableEq, Repr

/-- A row of the COSMIC `kick_info` table; `delta_vsysx_1` is the only
column the NaN quarantine inspects. -/
structure KickRow where
  bin_num : ℕ
  delta_vsysx_1 : FVal
  others : List FVal
deriving DecidableEq, Repr

/-- A row of an `InitialBinaryTable`-shaped table (used for both
`_initial_binaries` and `initC`, which the code treats interchangeably:
`perform_stellar_evolution` falls back to `_initC` as the initial-binary
table). -/
structure InitRow where
  bin_num : ℕ
  mass_1 : ℚ
  metallicity : ℚ
  tphysf : ℚ
  others : List FVal
deriving DecidableEq, Repr

/-- The initial-galaxy object produced by `galaxy_model(size=...)`
(`kicker/galaxy.py`). Its per-binary arrays are what the quarantine masks;
`cls` tags the concrete `Galaxy` class (`__class__`). -/
structure InitialGalaxy where
  cls : ℕ
  size : ℤ
  tau : List ℚ
  Z : List ℚ
  z : List ℚ
  rho : List ℚ
  phi : List ℚ
  x : List ℚ
  y : List ℚ
  v_R : List ℚ
  v_T : List ℚ
  v_z : List ℚ
  which_comp : List ℕ
deriving DecidableEq, Repr

instance : Inhabited InitialGalaxy :=
  ⟨{ cls := 0, size := 0, tau := [], Z := [], z := [], rho := [], phi := [],
     x := [], y := [], v_R := [], v_T := [], v_z := [], which_comp := [] }⟩

/-- One sampled point of a gala orbit: position and velocity in Cartesian
galactocentric coordinates (kpc, km/s). -/
structure PhaseState where
  x : ℚ
  y : ℚ
  z : ℚ
  v_x : ℚ
  v_y : ℚ
  v_z : ℚ
deriving DecidableEq, Repr

/-- A (nonempty) orbit trajectory: the sequence of sampled phase-space
states. `orbit[-1]` in the code is `Traj.last`. -/
structure Traj where
  head : PhaseState
  tail : List PhaseState
deriving DecidableEq, Repr

def Traj.last (t : Traj) : PhaseState := t.tail.getLastD t.head

/-- The value `integrate_orbit_with_events` produces for one binary: a
single gala orbit for a bound or merged binary, or a Python list of two
orbits for a disrupted binary (`isinstance(orbit, list)` in the code). -/
inductive Orbit where
  | bound : Traj → Orbit
  | disrupted : Traj → Traj → Orbit
deriving DecidableEq, Repr

/-- A final-coordinate cell: `np.inf` sentinel or a finite value. -/
inductive CVal where
  | inf : CVal
  | val : ℚ → CVal
deriving DecidableEq, Repr

/-- One record of the final-kinematics array: 3 position and 3 velocity
coordinates, one slice `final_kinematics[i, j, :]` of the code's array. -/
structure KinRec where
  px : CVal
  py : CVal
  pz : CVal
  vx : CVal
  vy : CVal
  vz : CVal
deriving DecidableEq, Repr

/-- The initialization `np.ones((n, 2, 6)) * np.inf`: every cell infinite. -/
def infRec : KinRec := ⟨.inf, .inf, .inf, .inf, .inf, .inf⟩

/-- Writing `orbit[-1].pos.xyz` and `orbit[-1].vel.d_xyz` into one record. -/
def recOf (s : PhaseState) : KinRec :=
  ⟨.val s.x, .val s.y, .val s.z, .val s.v_x, .val s.v_y, .val s.v_z⟩

/-- A BSE settings value: scalar, 1-d array or 2-d array (the three shapes
occurring in the default dict of `Population.__init__`). -/
inductive BSEVal where
  | num : ℚ → BSEVal
  | arr : List ℚ → BSEVal
  | arr2 : List (List ℚ) → BSEVal
deriving DecidableEq, Repr

/-- A gala potential, abstracted to the parameter block that
`potential.save`/`potential.load` round-trips through the side text file
(gala is an external collaborator with a fixed save/load contract). -/
structure Potential where
  params : List ℚ
deriving DecidableEq, Repr

/-- The state of `self.pool`: `None`, a running `multiprocessing.Pool`, or
a pool that has been closed but whose reference is still stored (the code
closes temporary pools without resetting `self.pool` to `None`). -/
inductive PoolState where
  | pnone : PoolState
  | popen : PoolState
  | pclosed : PoolState
deriving DecidableEq, Repr

/-- The `Population` object: constructor parameters, the pool, the
initial-galaxy attribute (absent before sampling, hence `Option`), and the
cached lazy attributes (the `_`-prefixed `None`-initialized fields). The
`_classes`/`_observables` payloads are opaque (they come from other
modules); only their presence/absence matters to the claims. -/
structure Population where
  n_binaries : ℤ
  n_binaries_match : ℤ
  processes : ℤ
  m1_cutoff : ℚ
  final_kstar1 : List ℤ
  final_kstar2 : List ℤ
  galaxy_model : ℕ
  galactic_potential : Potential
  v_dispersion : ℚ
  max_ev_time : ℚ
  timestep_size : ℚ
  pool : PoolState
  BSE_settings : List (String × BSEVal)
  initial_galaxy : Option InitialGalaxy
  c_initial_binaries : Option (List InitRow)
  c_mass_singles : Option ℚ
  c_mass_binaries : Option ℚ
  c_n_singles_req : Option ℚ
  c_n_bin_req : Option ℚ
  c_bpp : Option (List BppRow)
  c_bcm : Option (List BcmRow)
  c_initC : Option (List InitRow)
  c_kick_info : Option (List KickRow)
  c_orbits : Option (List (Option Orbit))
  c_classes : Option ℕ
  c_final_coords : Option (List (KinRec × KinRec))
  c_final_bpp : Option (List BppRow)
  c_observables : Option ℕ
deriving DecidableEq, Repr

/-! ## The default BSE settings dict of `Population.__init__` -/

/-- `dict.update` for one key/value pair with Python-dict semantics:
replace in place when the key exists, append otherwise. -/
def dictUpd (d : List (String × BSEVal)) (kv : String × BSEVal) :
    List (String × BSEVal) :=
  if d.any (fun e => e.1 == kv.1) then
    d.map (fun e => if e.1 == kv.1 then kv else e)
  else d ++ [kv]

/-- `self.BSE_settings.update(BSE_settings)`. -/
def dictUpds (d new : List (String × BSEVal)) : List (String × BSEVal) :=
  new.foldl dictUpd d

/-- The default `BSE_settings` dict set in `Population.__init__`. -/
def defaultBSE : List (String × BSEVal) :=
  [("xi", .num 1), ("bhflag", .num 1), ("neta", .num (1/2)), ("windflag", .num 3),
   ("wdflag", .num 1), ("alpha1", .num 1), ("pts1", .num (1/1000)),
   ("pts3", .num (1/50)), ("pts2", .num (1/100)), ("epsnov", .num (1/1000)),
   ("hewind", .num (1/2)), ("ck", .num 1000), ("bwind", .num 0),
   ("lambdaf", .num 0), ("mxns", .num 3), ("beta", .num (-1)), ("tflag", .num 1),
   ("acc2", .num (3/2)), ("grflag", .num 1), ("remnantflag", .num 4),
   ("ceflag", .num 0), ("eddfac", .num 1), ("ifflag", .num 0),
   ("bconst", .num 3000), ("sigma", .num 265), ("gamma", .num (-2)),
   ("pisn", .num 45),
   ("natal_kick_array", .arr2 [[-100, -100, -100, -100, 0],
                               [-100, -100, -100, -100, 0]]),
   ("bhsigmafrac", .num 1), ("polar_kick_angle", .num 90),
   ("qcrit_array", .arr [0, 0, 0, 0, 0, 0, 0, 0, 0, 0, 0, 0, 0, 0, 0, 0]),
   ("cekickflag", .num 2), ("cehestarflag", .num 0), ("cemergeflag", .num 0),
   ("ecsn", .num (9/4)), ("ecsn_mlow", .num (8/5)), ("aic", .num 1),
   ("ussn", .num 0), ("sigmadiv", .num (-20)), ("qcflag", .num 5),
   ("eddlimflag", .num 0),
   ("fprimc_array", .arr [2/21, 2/21, 2/21, 2/21, 2/21, 2/21, 2/21, 2/21,
                          2/21, 2/21, 2/21, 2/21, 2/21, 2/21, 2/21, 2/21]),
   ("bhspinflag", .num 0), ("bhspinmag", .num 0), ("rejuv_fac", .num 1),
   ("rejuvflag", .num 0), ("htpmb", .num 1), ("ST_cr", .num 1),
   ("ST_tide", .num 1), ("bdecayfac", .num 1), ("rembar_massloss", .num (1/2)),
   ("kickflag", .num 0), ("zsun", .num (7/500)), ("bhms_coll_flag", .num 0),
   ("don_lim", .num (-1)), ("acc_lim", .num (-1)), ("binfrac", .num (1/2))]

/-- `Population.__init__`. Caches start empty, `n_binaries_match` starts at
`n_binaries`, the pool at `None`, and the default BSE dict is updated with
the user-supplied settings. -/
def mkPopulation (n_binaries processes : ℤ) (m1_cutoff : ℚ)
    (fk1 fk2 : List ℤ) (gal_model : ℕ) (pot : Potential)
    (v_disp t_max dt : ℚ) (bse : List (String × BSEVal)) : Population :=
  { n_binaries := n_binaries, n_binaries_match := n_binaries,
    processes := processes, m1_cutoff := m1_cutoff,
    final_kstar1 := fk1, final_kstar2 := fk2, galaxy_model := gal_model,
    galactic_potential := pot, v_dispersion := v_disp, max_ev_time := t_max,
    timestep_size := dt, pool := .pnone,
    BSE_settings := dictUpds defaultBSE bse,
    initial_galaxy := none, c_initial_binaries := none,
    c_mass_singles := none, c_mass_binaries := none, c_n_singles_req := none,
    c_n_bin_req := none, c_bpp := none, c_bcm := none, c_initC := none,
    c_kick_info := none, c_orbits := none, c_classes := none,
    c_final_coords := none, c_final_bpp := none, c_observables := none }

/-! ## `sample_initial_binaries` -/

/-- The values the external collaborators hand to
`sample_initial_binaries`: the COSMIC `InitialBinaryTable.sampler` output,
the galaxy draw `galaxy_model(size=n)` as a function of the requested
size, and the realized `np.random.normal` velocity-dispersion draws
(around the gala circular velocity) as a function of the size. -/
structure SamplerOut where
  initial_binaries : List InitRow
  mass_singles : ℚ
  mass_binaries : ℚ
  n_singles_req : ℚ
  n_bin_req : ℚ
  galaxyOf : ℕ → InitialGalaxy
  vOf : ℕ → List ℚ × List ℚ × List ℚ

def clampLo : ℚ := 1 / 10000
def clampHi : ℚ := 3 / 100

/-- `Population.sample_initial_binaries`: filter the sampler output by the
primary-mass cutoff, record the matched count, draw the initial galaxy of
that size, attach the dispersion velocities, copy the galaxy metallicity
and birth time into the binary table, and clamp the binary-table
metallicity into `[1e-4, 0.03]` (first raising low values, then lowering
high values, exactly as the two chained assignments do); the galaxy's own
`Z` array is left untouched. -/
def sample_initial_binaries (samp : SamplerOut) (pop : Population) :
    Population :=
  let filtered := samp.initial_binaries.filter
    (fun r => pop.m1_cutoff ≤ r.mass_1)
  let n : ℕ := filtered.length
  let g0 := samp.galaxyOf n
  let v := samp.vOf n
  let g : InitialGalaxy := { g0 with v_R := v.1, v_T := v.2.1, v_z := v.2.2 }
  let b1 := List.zipWith (fun r zq => { r with metallicity := zq }) filtered g.Z
  let b2 := List.zipWith (fun r t => { r with tphysf := t }) b1 g.tau
  let b3 := b2.map (fun r =>
    if r.metallicity < clampLo then { r with metallicity := clampLo } else r)
  let b4 := b3.map (fun r =>
    if clampHi < r.metallicity then { r with metallicity := clampHi } else r)
  { pop with
      c_initial_binaries := some b4,
      c_mass_singles := some samp.mass_singles,
      c_mass_binaries := some samp.mass_binaries,
      c_n_singles_req := some samp.n_singles_req,
      c_n_bin_req := some samp.n_bin_req,
      n_binaries_match := (n : ℤ),
      initial_galaxy := some g }

/-! ## `perform_stellar_evolution` -/

/-- The batch output of the external solver call
`Evolve.evolve(initialbinarytable=..., BSEDict=..., pool=...)`. -/
structure EvolveOut where
  bpp : List BppRow
  bcm : List BcmRow
  initC : List InitRow
  kick_info : List KickRow
deriving DecidableEq, Repr

/-- `self._bpp[~self._bpp.index.duplicated(keep="last")]`: keep, in order,
the last row of each `bin_num` (the index of `bpp`). -/
def keepLast : List BppRow → List BppRow
  | [] => []
  | r :: rest =>
    if rest.any (fun r2 => r2.bin_num == r.bin_num) then keepLast rest
    else r :: keepLast rest

/-- `nan_bin_nums`: the concatenation (with multiplicity) of the binary
numbers of final-`bpp` rows with NaN `sep` and of `kick_info` rows with
NaN `delta_vsysx_1`. -/
def nanBinNums (bpp : List BppRow) (ki : List KickRow) : List ℕ :=
  ((keepLast bpp).filter (fun r => r.sep.isNan)).map (fun r => r.bin_num)
    ++ (ki.filter (fun r => r.delta_vsysx_1.isNan)).map (fun r => r.bin_num)

/-- pandas boolean-mask indexing `arr[mask]` over an aligned pair. -/
def filterMask {α : Type} : List Bool → List α → List α
  | b :: bs, a :: rest => if b then a :: filterMask bs rest else filterMask bs rest
  | _, _ => []

/-- The in-place update of the initial-galaxy arrays in the quarantine
branch: every per-binary array is masked by `not_nan` and `_size` is
decremented by `n_nan`. -/
def quarantineGalaxy (mask : List Bool) (n_nan : ℕ) (g : InitialGalaxy) :
    InitialGalaxy :=
  { g with
      tau := filterMask mask g.tau, Z := filterMask mask g.Z,
      z := filterMask mask g.z, rho := filterMask mask g.rho,
      phi := filterMask mask g.phi, v_R := filterMask mask g.v_R,
      v_T := filterMask mask g.v_T, v_z := filterMask mask g.v_z,
      x := filterMask mask g.x, y := filterMask mask g.y,
      which_comp := filterMask mask g.which_comp,
      size := g.size - (n_nan : ℤ) }

/-- The body of `perform_stellar_evolution` after the initial-binary
check: temporary pool management around `Evolve.evolve`, storing the four
solver tables, and the NaN quarantine. The side write of the offending
rows to `nans.h5` and the warning prints are I/O without effect on the
object. -/
def stellar_core (ev : EvolveOut) (pop0 : Population) : Population :=
  let no_pool_existed := pop0.pool = .pnone ∧ 1 < pop0.processes
  let pop1 := if no_pool_existed then { pop0 with pool := .popen } else pop0
  let pop2 := { pop1 with c_bpp := some ev.bpp, c_bcm := some ev.bcm,
                          c_initC := some ev.initC,
                          c_kick_info := some ev.kick_info }
  -- the temporary pool is closed and joined but the reference remains
  let pop3 := if no_pool_existed then { pop2 with pool := .pclosed } else pop2
  let fbpp := keepLast ev.bpp
  if fbpp.any (fun r => r.sep.isNan)
      || ev.kick_info.any (fun r => r.delta_vsysx_1.isNan) then
    let nbn := nanBinNums ev.bpp ev.kick_info
    let n_nan := nbn.length
    let mask := fbpp.map (fun r => !(nbn.contains r.bin_num))
    { pop3 with
        n_binaries_match := pop3.n_binaries_match - (n_nan : ℤ),
        c_bpp := some (ev.bpp.filter (fun r => !(nbn.contains r.bin_num))),
        c_bcm := some (ev.bcm.filter (fun r => !(nbn.contains r.bin_num))),
        c_kick_info := some (ev.kick_info.filter
          (fun r => !(nbn.contains r.bin_num))),
        c_initC := some (ev.initC.filter (fun r => !(nbn.contains r.bin_num))),
        initial_galaxy := pop3.initial_galaxy.map (quarantineGalaxy mask n_nan) }
  else pop3

/-- `Population.perform_stellar_evolution`: clear the dependent caches
(`_final_bpp`, `_observables`), sample first when no initial binaries have
been produced at all, fall back to `initC` when only it is present, then
run the solver batch and the quarantine. -/
def perform_stellar_evolution (samp : SamplerOut) (ev : EvolveOut)
    (pop : Population) : Population :=
  let pop0 := { pop with c_final_bpp := none, c_observables := none }
  -- the branch reads `self._initial_binaries`/`self._initC`, untouched by
  -- the cache clearing just above
  let pop1 :=
    if pop.c_initial_binaries = none ∧ pop.c_initC = none then
      sample_initial_binaries samp pop0
    else if pop.c_initial_binaries = none then
      { pop0 with c_initial_binaries := pop0.c_initC }
    else pop0
  stellar_core ev pop1

/-! ## `perform_galactic_evolution` -/

/-- The phase-space position `w0s[i]` built from the cylindrical
representation and differential of the initial galaxy: the angular rate is
`v_T / rho` (the `rad/Gyr` conversion is a fixed unit factor, an identity
of the model). -/
structure PhaseW where
  rho : ℚ
  phi : ℚ
  z : ℚ
  v_R : ℚ
  v_phi : ℚ
  v_z : ℚ
deriving DecidableEq, Repr

def w0Of (g : InitialGalaxy) (i : ℕ) : PhaseW :=
  { rho := g.rho.getD i 0, phi := g.phi.getD i 0, z := g.z.getD i 0,
    v_R := g.v_R.getD i 0, v_phi := g.v_T.getD i 0 / g.rho.getD i 0,
    v_z := g.v_z.getD i 0 }

/-- The argument tuple handed to `integrate_orbit_with_events` for binary
`i`: `(w0s[i], potential, events[i], max_ev_time - tau[i], max_ev_time,
timestep_size)`. `events` is the opaque token produced by
`identify_events` for that binary (`kicker/events.py` is an external file
here, so the event list is not interpreted). -/
structure GalArgs where
  w0 : PhaseW
  potential : Potential
  events : ℕ
  t1 : ℚ
  t2 : ℚ
  dt : ℚ
deriving DecidableEq, Repr

/-- The argument tuple for binary `i`. `g_pre` is the galaxy the `w0s`
were built from (read before the `bpp` property access), `g_post` the
galaxy whose `tau` is read when the tuples are assembled (after it). -/
def galArgs (g_pre g_post : InitialGalaxy) (eventsOf : ℕ → ℕ)
    (pot : Potential) (t_max dt : ℚ) (i : ℕ) : GalArgs :=
  { w0 := w0Of g_pre i, potential := pot, events := eventsOf i,
    t1 := t_max - g_post.tau.getD i 0, t2 := t_max, dt := dt }

inductive GalError where
  /-- `ValueError: Pool not running` from `starmap` on a closed pool. -/
  | poolNotRunning : GalError
deriving DecidableEq, Repr

instance {ε α : Type} [DecidableEq ε] [DecidableEq α] :
    DecidableEq (Except ε α) := fun a b =>
  match a, b with
  | .error x, .error y =>
    if h : x = y then .isTrue (by simp [h]) else .isFalse (by simp [h])
  | .ok x, .ok y =>
    if h : x = y then .isTrue (by simp [h]) else .isFalse (by simp [h])
  | .error _, .ok _ => .isFalse (by simp)
  | .ok _, .error _ => .isFalse (by simp)

/-- The integrand for binary `i` in a population whose `bpp`/`kick_info`
caches already hold `b`/`ki`: both the `w0s` galaxy and the `tau` galaxy
are the population's own (no quarantine can intervene). -/
def binInt (identify : List BppRow → List KickRow → ℕ → ℕ)
    (integrate : GalArgs → Option Orbit) (pop : Population)
    (b : List BppRow) (ki : List KickRow) (i : ℕ) : Option Orbit :=
  integrate (galArgs (pop.initial_galaxy.getD default)
    (pop.initial_galaxy.getD default) (identify b ki)
    pop.galactic_potential pop.max_ev_time pop.timestep_size i)

/-- `pool.starmap` over one task per binary index: the workers complete in
the arbitrary order `order`; each completed task is tagged with its input
index and the aggregated list is read back in input-index order. -/
def gatherByIndex (f : ℕ → Option Orbit) (order : List ℕ) (n : ℕ) :
    List (Option Orbit) :=
  let completed := order.map (fun j => (j, f j))
  (List.range n).map (fun i => (completed.lookup i).getD none)

/-- The `bpp` property read inside `perform_galactic_evolution`: return
the cache, or run `perform_stellar_evolution` first and read its result
(pairing the possibly updated object with the table). -/
def bppRead (samp : SamplerOut) (ev : EvolveOut) (p : Population) :
    Population × List BppRow :=
  match p.c_bpp with
  | some b => (p, b)
  | none =>
    let q := perform_stellar_evolution samp ev p
    (q, q.c_bpp.getD [])

/-- The `kick_info` property read, analogous to `bppRead`. -/
def kickRead (samp : SamplerOut) (ev : EvolveOut) (p : Population) :
    Population × List KickRow :=
  match p.c_kick_info with
  | some k => (p, k)
  | none =>
    let q := perform_stellar_evolution samp ev p
    (q, q.c_kick_info.getD [])

/-- `Population.perform_galactic_evolution`. External inputs:
* `identify` — `identify_events(full_bpp, full_kick_info)` from
  `kicker/events.py`, giving the opaque per-binary event token;
* `integrate` — modelled from the spec: `integrate_orbit_with_events`
  (`kicker/kicks.py`, not among the given sources); per the spec a
  per-binary integration failure is isolated and yields the missing
  (`none`) orbit marker instead of aborting the batch, so the function is
  an arbitrary `GalArgs → Option Orbit`;
* `order` — the completion order of the pool workers;
* `samp`, `ev` — collaborator outputs consumed if the `bpp`/`kick_info`
  property reads trigger the earlier phases.
The function clears the dependent caches, builds the `w0s`, reads the
`bpp` and `kick_info` properties (forcing stellar evolution when their
caches are empty), and integrates every binary: with `starmap` when a pool
exists or `processes > 1` (raising when the stored pool has been closed),
sequentially otherwise. -/
def perform_galactic_evolution (identify : List BppRow → List KickRow → ℕ → ℕ)
    (integrate : GalArgs → Option Orbit) (order : List ℕ)
    (samp : SamplerOut) (ev : EvolveOut) (pop : Population) :
    Except GalError Population :=
  let p0 := { pop with c_final_coords := none, c_observables := none }
  let g_pre := p0.initial_galaxy.getD default
  let bp := bppRead samp ev p0
  let kp := kickRead samp ev bp.1
  let p2 := kp.1
  let eventsOf := identify bp.2 kp.2
  let g_post := p2.initial_galaxy.getD default
  let n := p2.n_binaries_match.toNat
  let f : ℕ → Option Orbit := fun i =>
    integrate (galArgs g_pre g_post eventsOf p2.galactic_potential
      p2.max_ev_time p2.timestep_size i)
  if p2.pool = .pclosed then .error .poolNotRunning
  else if p2.pool = .popen then
    .ok { p2 with c_orbits := some (gatherByIndex f order n) }
  else if 1 < p2.processes then
    -- a fresh pool is created, drained and closed (the reference remains)
    .ok { p2 with c_orbits := some (gatherByIndex f order n), pool := .pclosed }
  else
    .ok { p2 with c_orbits := some ((List.range n).map f) }

/-- The `orbits` property: return the cache, or run
`perform_galactic_evolution` and read the fresh cache. -/
def orbits_prop (identify : List BppRow → List KickRow → ℕ → ℕ)
    (integrate : GalArgs → Option Orbit) (order : List ℕ)
    (samp : SamplerOut) (ev : EvolveOut) (pop : Population) :
    Except GalError (Population × List (Option Orbit)) :=
  match pop.c_orbits with
  | some o => .ok (pop, o)
  | none =>
    match perform_galactic_evolution identify integrate order samp ev pop with
    | .error e => .error e
    | .ok p => .ok (p, p.c_orbits.getD [])

/-! ## `get_final_coords` -/

/-- `Population.get_final_coords` applied to the orbits list: the
final-kinematics array starts at `np.inf` everywhere; a missing (`None`)
orbit leaves both records at the sentinel, a disrupted orbit (a Python
list of two orbits) fills both records from the two components' last
samples, any other orbit fills only the first record. -/
def get_final_coords (orbits : List (Option Orbit)) :
    List (KinRec × KinRec) :=
  orbits.map (fun orbit =>
    match orbit with
    | none => (infRec, infRec)
    | some (.disrupted t1 t2) => (recOf t1.last, recOf t2.last)
    | some (.bound t) => (recOf t.last, infRec))

/-! ## Persistence: `Population.save` and `load` -/

/-- File names as character lists; `file_name[-3:]` is a suffix slice. -/
abbrev FileName := List Char

/-- The extension fix-up `if file_name[-3:] != ".h5": file_name += ".h5"`
applied identically by `save` and `load`. -/
def munge (name : FileName) : FileName :=
  if name.drop (name.length - 3) = ['.', 'h', '5'] then name
  else name ++ ['.', 'h', '5']

/-- Everything one `save` call writes for a base name: the four tables and
the galaxy dataset plus the scalar blocks of the `.h5` file, the potential
side text file and the orbits `.npy` file (the companion files share the
base name, so the bundle is keyed by the `.h5` name). The galaxy dataset
is modelled from the spec: `galaxy.save`/`galaxy.load`
(`kicker/galaxy.py`, not among the given sources) persist the
initial-galaxy data bit-identically. -/
structure SavedFiles where
  bpp : List BppRow
  bcm : List BcmRow
  initC : List InitRow
  kick_info : List KickRow
  potential_txt : Potential
  initial_galaxy_ds : InitialGalaxy
  orbits_npy : List (Option Orbit)
  numeric_params : List ℚ
  k_stars : List ℤ × List ℤ
  bse : List (String × BSEVal)
deriving DecidableEq, Repr

/-- The directory: an association of file names to saved bundles. -/
abbrev FS := List (FileName × SavedFiles)

inductive SaveErr where
  | fileExists : SaveErr
  /-- Model marker: a cache was empty, so the property reads inside `save`
  would call the external collaborators; such populations are outside the
  modelled domain of `save` (the claims only concern fully evolved
  populations). -/
  | notEvolved : SaveErr
deriving DecidableEq, Repr

/-- The data a `save` call writes for a fully evolved population (every
property read hits its cache). `None` when a cache is missing. -/
def saveData (p : Population) : Option SavedFiles :=
  match p.c_bpp, p.c_bcm, p.c_initC, p.c_kick_info, p.c_orbits,
      p.c_mass_singles, p.c_mass_binaries, p.c_n_singles_req, p.c_n_bin_req,
      p.initial_galaxy with
  | some bpp, some bcm, some initC, some ki, some orbits, some ms, some mb,
      some nsr, some nbr, some g =>
    some { bpp := bpp, bcm := bcm, initC := initC, kick_info := ki,
           potential_txt := p.galactic_potential, initial_galaxy_ds := g,
           orbits_npy := orbits,
           numeric_params := [(p.n_binaries : ℚ), (p.n_binaries_match : ℚ),
             (p.processes : ℚ), p.m1_cutoff, p.v_dispersion, p.max_ev_time,
             p.timestep_size, ms, mb, nsr, nbr],
           k_stars := (p.final_kstar1, p.final_kstar2),
           bse := p.BSE_settings }
  | _, _, _, _, _, _, _, _, _, _ => none

def fsRemove (name : FileName) (fs : FS) : FS :=
  fs.filter (fun e => e.1 ≠ name)

def writeOut (fs : FS) (name : FileName) (p : Population) :
    Option SaveErr × FS :=
  match saveData p with
  | some d => (none, (name, d) :: fs)
  | none => (some .notEvolved, fs)

/-- `Population.save`: fix the extension, then refuse to touch an existing
file unless `overwrite=True` (in which case `os.remove` deletes it first),
and only then write all the datasets. -/
def save (fs : FS) (name : FileName) (overwrite : Bool) (p : Population) :
    Option SaveErr × FS :=
  let name := munge name
  if (fs.lookup name).isSome then
    if overwrite then writeOut (fsRemove name fs) name p
    else (some .fileExists, fs)
  else writeOut fs name p

/-- Python `int()` on a float: truncation toward zero. -/
def pyInt (q : ℚ) : ℤ := if 0 ≤ q then ⌊q⌋ else ⌈q⌉

/-- The module-level `load`: read the scalar blocks, the galaxy and the
potential, rebuild a `Population` through the constructor and fill the
loaded counts, sampling totals, tables and orbits into it. -/
def load (fs : FS) (name : FileName) : Option Population :=
  let name := munge name
  match fs.lookup name with
  | none => none
  | some d =>
    let np := d.numeric_params
    let p := mkPopulation (pyInt (np.getD 0 0)) (pyInt (np.getD 2 0))
      (np.getD 3 0) d.k_stars.1 d.k_stars.2 d.initial_galaxy_ds.cls
      d.potential_txt (np.getD 4 0) (np.getD 5 0) (np.getD 6 0) d.bse
    some { p with
        n_binaries_match := pyInt (np.getD 1 0),
        c_mass_singles := some (np.getD 7 0),
        c_mass_binaries := some (np.getD 8 0),
        c_n_singles_req := some (np.getD 9 0),
        c_n_bin_req := some (np.getD 10 0),
        initial_galaxy := some d.initial_galaxy_ds,
        c_bpp := some d.bpp, c_bcm := some d.bcm, c_initC := some d.initC,
        c_kick_info := some d.kick_info, c_orbits := some d.orbits_npy }

/-! ## Concrete example objects used by witnesses and counterexamples -/

/-- A one-binary initial galaxy. -/
def galaxyEx : InitialGalaxy :=
  { cls := 1, size := 1, tau := [2], Z := [1/100], z := [0], rho := [8],
    phi := [0], x := [8], y := [0], v_R := [0], v_T := [220], v_z := [0],
    which_comp := [0] }

/-- A fully evolved one-binary population (every cache filled, and a cached
final-coordinates value). -/
def popEx : Population :=
  { n_binaries := 1, n_binaries_match := 1, processes := 1, m1_cutoff := 7,
    final_kstar1 := [1], final_kstar2 := [1], galaxy_model := 1,
    galactic_potential := ⟨[1, 2]⟩, v_dispersion := 5, max_ev_time := 12,
    timestep_size := 1, pool := .pnone, BSE_settings := defaultBSE,
    initial_galaxy := some galaxyEx,
    c_initial_binaries := some [⟨0, 10, 1/100, 2000, []⟩],
    c_mass_singles := some 100, c_mass_binaries := some 200,
    c_n_singles_req := some 3, c_n_bin_req := some 4,
    c_bpp := some [⟨0, .val 1, []⟩], c_bcm := some [⟨0, []⟩],
    c_initC := some [⟨0, 10, 1/100, 2000, []⟩],
    c_kick_info := some [⟨0, .val 0, []⟩],
    c_orbits := some [none], c_classes := none,
    c_final_coords := some [], c_final_bpp := none, c_observables := none }

/-- Sampler output placeholder for calls whose sampling branch is not
taken. -/
def sampEx : SamplerOut :=
  ⟨[], 0, 0, 0, 0, fun _ => default, fun _ => ([], [], [])⟩

/-- A NaN-free solver output for one binary. -/
def evEx : EvolveOut :=
  ⟨[⟨0, .val 1, []⟩], [⟨0, []⟩], [⟨0, 10, 1/100, 100, []⟩], [⟨0, .val 0, []⟩]⟩

def trajEx : Traj := ⟨⟨0, 0, 0, 0, 0, 0⟩, []⟩
def trajEx2 : Traj := ⟨⟨1, 2, 3, 4, 5, 6⟩, [⟨7, 8, 9, 10, 11, 12⟩]⟩
def orbitsEx : List (Option Orbit) :=
  [none, some (.bound trajEx2), some (.disrupted trajEx trajEx2)]

def savedEx : SavedFiles :=
  ⟨[], [], [], [], ⟨[]⟩, galaxyEx, [], [], ([], []), []⟩

def fsEx : FS := [(['a', '.', 'h', '5'], savedEx)]

/-- A two-binary initial galaxy for the quarantine counterexample. -/
def galaxyC1 : InitialGalaxy :=
  { cls := 1, size := 2, tau := [1, 2], Z := [1/100, 1/50], z := [0, 0],
    rho := [8, 9], phi := [0, 0], x := [8, 9], y := [0, 0], v_R := [0, 0],
    v_T := [220, 220], v_z := [0, 0], which_comp := [0, 0] }

/-- A sampled two-binary population about to be stellar-evolved. -/
def popC1 : Population :=
  { n_binaries := 2, n_binaries_match := 2, processes := 1, m1_cutoff := 7,
    final_kstar1 := [], final_kstar2 := [], galaxy_model := 1,
    galactic_potential := ⟨[]⟩, v_dispersion := 5, max_ev_time := 12,
    timestep_size := 1, pool := .pnone, BSE_settings := defaultBSE,
    initial_galaxy := some galaxyC1,
    c_initial_binaries := some [⟨0, 10, 1/100, 100, []⟩, ⟨1, 11, 1/50, 100, []⟩],
    c_mass_singles := some 100, c_mass_binaries := some 200,
    c_n_singles_req := some 3, c_n_bin_req := some 4,
    c_bpp := none, c_bcm := none, c_initC := none, c_kick_info := none,
    c_orbits := none, c_classes := none, c_final_coords := none,
    c_final_bpp := none, c_observables := none }

/-- Solver output in which exactly one distinct binary (number 0) is
pathological: its final `bpp` row has NaN `sep` *and* its `kick_info` row
has NaN `delta_vsysx_1`; binary 1 is finite everywhere. -/
def evC1 : EvolveOut :=
  { bpp := [⟨0, .nan, []⟩, ⟨1, .val 1, []⟩],
    bcm := [⟨0, []⟩, ⟨1, []⟩],
    initC := [⟨0, 10, 1/100, 100, []⟩, ⟨1, 11, 1/50, 100, []⟩],
    kick_info := [⟨0, .nan, []⟩, ⟨1, .val 0, []⟩] }

def evC9 : EvolveOut :=
  { bpp := [⟨0, .nan, [.val 1]⟩, ⟨0, .val 2, [.nan]⟩],
    bcm := [⟨0, [.nan]⟩],
    initC := [⟨0, 10, 1/100, 100, [.nan]⟩],
    kick_info := [⟨0, .val 0, [.nan]⟩] }

/-- One binary above the cutoff; the galaxy draw has a metallicity far
below `1e-4`, so the clamp must raise it. -/
def sampC10 : SamplerOut :=
  { initial_binaries := [⟨0, 10, 1/50, 0, []⟩],
    mass_singles := 1, mass_binaries := 2, n_singles_req := 3, n_bin_req := 4,
    galaxyOf := fun n =>
      { cls := 1, size := (n : ℤ), tau := [5], Z := [1/1000000], z := [0],
        rho := [8], phi := [0], x := [8], y := [0], v_R := [], v_T := [],
        v_z := [], which_comp := [0] },
    vOf := fun _ => ([0], [220], [0]) }

/-- Event extraction standing in for `identify_events`: the opaque token
of binary `i` is `i` itself. -/
def identifyEx : List BppRow → List KickRow → ℕ → ℕ := fun _ _ i => i

/-- An integrator whose integration of binary 0 fails (yielding the
missing marker) while every other binary succeeds. -/
def integrateC2 : GalArgs → Option Orbit :=
  fun a => if a.events == 0 then none else some (.bound trajEx)

/-- `popEx` widened to two binaries (sequential configuration). -/
def popC2 : Population := { popEx with n_binaries_match := 2 }

/-- `popEx` widened to two binaries with two worker processes. -/
def popC5 : Population := { popEx with n_binaries_match := 2, processes := 2 }

/-- A fresh population: nothing sampled, nothing evolved. -/
def popC6 : Population :=
  { popEx with c_initial_binaries := none, c_initC := none }

/-- A sampled population whose stellar evolution has not run. -/
def popC6b : Population := { popEx with c_orbits := none, c_bpp := none }

/-! ## Claim theorems -/

/-- **C7.** `get_final_coords` maps a missing (`None`) orbit to the
all-infinity sentinel in both records, a bound or merged orbit to its
final position/velocity in the first record with the second left at the
sentinel, and a disrupted orbit to the two components' final
positions/velocities in the two records — at the binary's own index. -/
theorem get_final_coords_cases (orbits : List (Option Orbit)) (i : ℕ) :
    (orbits[i]? = some none →
      (get_final_coords orbits)[i]? = some (infRec, infRec)) ∧
    (∀ t, orbits[i]? = some (some (.bound t)) →
      (get_final_coords orbits)[i]? = some (recOf t.last, infRec)) ∧
    (∀ t1 t2, orbits[i]? = some (some (.disrupted t1 t2)) →
      (get_final_coords orbits)[i]? = some (recOf t1.last, recOf t2.last)) := by
  refine ⟨fun h => ?_, fun t h => ?_, fun t1 t2 h => ?_⟩ <;>
    simp [get_final_coords, List.getElem?_map, h]


theorem get_final_coords_cases_witness :
    (get_final_coords orbitsEx)[0]? = some (infRec, infRec) ∧
    (get_final_coords orbitsEx)[1]? = some (recOf trajEx2.last, infRec) ∧
    (get_final_coords orbitsEx)[2]? =
      some (recOf trajEx.last, recOf trajEx2.last) :=
  ⟨(get_final_coords_cases orbitsEx 0).1 rfl,
   (get_final_coords_cases orbitsEx 1).2.1 trajEx2 rfl,
   (get_final_coords_cases orbitsEx 2).2.2 trajEx trajEx2 rfl⟩

/-- **C8.** If the target `.h5` file already exists and `overwrite` was not
requested, `save` raises `FileExistsError` and the directory (hence the
existing file's contents) is unchanged; with `overwrite=True` the existing
file is removed and replaced by the freshly written data. -/
theorem save_overwrite_protection (fs : FS) (name : FileName)
    (p : Population) :
    ((fs.lookup (munge name)).isSome = true →
      save fs name false p = (some .fileExists, fs)) ∧
    (∀ d, (fs.lookup (munge name)).isSome = true → saveData p = some d →
      save fs name true p =
        (none, (munge name, d) :: fsRemove (munge name) fs) ∧
      ((save fs name true p).2.lookup (munge name) = some d)) := by
  constructor
  · intro h
    simp [save, h]
  · intro d h hd
    have h1 : save fs name true p =
        (none, (munge name, d) :: fsRemove (munge name) fs) := by
      simp [save, h, writeOut, hd]
    refine ⟨h1, ?_⟩
    rw [h1]
    simp [List.lookup]


theorem save_overwrite_protection_witness :
    save fsEx ['a'] false popEx = (some .fileExists, fsEx) ∧
    (save fsEx ['a'] true popEx).2.lookup (munge ['a']) = some
      { bpp := [⟨0, .val 1, []⟩], bcm := [⟨0, []⟩],
        initC := [⟨0, 10, 1/100, 2000, []⟩], kick_info := [⟨0, .val 0, []⟩],
        potential_txt := ⟨[1, 2]⟩, initial_galaxy_ds := galaxyEx,
        orbits_npy := [none],
        numeric_params := [1, 1, 1, 7, 5, 12, 1, 100, 200, 3, 4],
        k_stars := ([1], [1]), bse := defaultBSE } :=
  ⟨(save_overwrite_protection fsEx ['a'] popEx).1 (by decide),
   ((save_overwrite_protection fsEx ['a'] popEx).2 _ (by decide) (by rfl)).2⟩

/-- **C3 counterexample.** The claim says every cached value depending on
stellar-evolution output — the final positions among them — is cleared by
`perform_stellar_evolution`. On the concrete fully evolved population
`popEx`, whose `_final_coords` cache holds a value, running
`perform_stellar_evolution` leaves that cache populated (only
`_final_bpp` and `_observables` are cleared), so a subsequent
`final_coords` read returns the value computed from the superseded
phase. -/
theorem stale_final_coords_counterexample :
    (perform_stellar_evolution sampEx evEx popEx).c_final_coords = some [] ∧
    (perform_stellar_evolution sampEx evEx popEx).c_final_coords ≠ none := by
  have h1 : (perform_stellar_evolution sampEx evEx popEx).c_final_coords =
      some [] := rfl
  refine ⟨h1, ?_⟩
  rw [h1]
  exact Option.some_ne_none _

/-! ### Helper lemmas about which fields the phase functions touch -/

theorem contains_eq_true_iff (l : List ℕ) (b : ℕ) :
    l.contains b = true ↔ b ∈ l := by
  simp [List.contains]

/-- `perform_stellar_evolution` always ends in `stellar_core` applied to
some intermediate population. -/
theorem pse_eq_core (samp : SamplerOut) (ev : EvolveOut) (pop : Population) :
    ∃ q, perform_stellar_evolution samp ev pop = stellar_core ev q := by
  by_cases ha : pop.c_initial_binaries = none ∧ pop.c_initC = none
  · exact ⟨_, by simp only [perform_stellar_evolution]; rw [if_pos ha]⟩
  · by_cases hbb : pop.c_initial_binaries = none
    · exact ⟨_, by
        simp only [perform_stellar_evolution]
        rw [if_neg ha, if_pos hbb]⟩
    · exact ⟨_, by
        simp only [perform_stellar_evolution]
        rw [if_neg ha, if_neg hbb]⟩

theorem stellar_core_caches (e : EvolveOut) (q : Population) :
    (stellar_core e q).c_final_bpp = q.c_final_bpp ∧
    (stellar_core e q).c_observables = q.c_observables ∧
    (stellar_core e q).c_final_coords = q.c_final_coords ∧
    (stellar_core e q).c_mass_singles = q.c_mass_singles := by
  by_cases h : q.pool = .pnone ∧ 1 < q.processes <;>
    · simp only [stellar_core, h, if_true, if_false, ite_true, ite_false]
      split <;> simp

theorem pse_caches (s : SamplerOut) (e : EvolveOut) (q : Population) :
    (perform_stellar_evolution s e q).c_final_bpp = none ∧
    (perform_stellar_evolution s e q).c_observables = none ∧
    (perform_stellar_evolution s e q).c_final_coords = q.c_final_coords := by
  unfold perform_stellar_evolution
  by_cases h1 : q.c_initial_binaries = none ∧ q.c_initC = none
  · simp only [h1, and_self, if_true, ite_true]
    refine ⟨?_, ?_, ?_⟩ <;>
      simp [(stellar_core_caches e _).1, (stellar_core_caches e _).2.1,
        (stellar_core_caches e _).2.2.1, sample_initial_binaries]
  · by_cases h2 : q.c_initial_binaries = none
    · have h3 : ¬q.c_initC = none := fun hc => h1 ⟨h2, hc⟩
      refine ⟨?_, ?_, ?_⟩ <;>
        simp [h1, h2, h3, (stellar_core_caches e _).1,
          (stellar_core_caches e _).2.1, (stellar_core_caches e _).2.2.1]
    · refine ⟨?_, ?_, ?_⟩ <;>
        simp [h1, h2, (stellar_core_caches e _).1,
          (stellar_core_caches e _).2.1, (stellar_core_caches e _).2.2.1]

theorem bppRead_caches (samp : SamplerOut) (ev : EvolveOut) (p : Population)
    (hfc : p.c_final_coords = none) (hob : p.c_observables = none) :
    (bppRead samp ev p).1.c_final_coords = none ∧
    (bppRead samp ev p).1.c_observables = none := by
  unfold bppRead
  cases hb : p.c_bpp with
  | some b => exact ⟨hfc, hob⟩
  | none => exact ⟨(pse_caches samp ev p).2.2.trans hfc, (pse_caches samp ev p).2.1⟩

theorem kickRead_caches (samp : SamplerOut) (ev : EvolveOut) (p : Population)
    (hfc : p.c_final_coords = none) (hob : p.c_observables = none) :
    (kickRead samp ev p).1.c_final_coords = none ∧
    (kickRead samp ev p).1.c_observables = none := by
  unfold kickRead
  cases hk : p.c_kick_info with
  | some k => exact ⟨hfc, hob⟩
  | none => exact ⟨(pse_caches samp ev p).2.2.trans hfc, (pse_caches samp ev p).2.1⟩

/-- **C3 (amended).** `perform_stellar_evolution` clears exactly the
final-bpp and observables caches, and `perform_galactic_evolution` (when
it completes) clears the final-coordinates and observables caches; the
final-coordinates cache is *not* cleared by `perform_stellar_evolution`
(see the counterexample). -/
theorem cache_invalidation_amended
    (identify : List BppRow → List KickRow → ℕ → ℕ)
    (integrate : GalArgs → Option Orbit) (order : List ℕ)
    (samp : SamplerOut) (ev : EvolveOut) (pop : Population) :
    ((perform_stellar_evolution samp ev pop).c_final_bpp = none ∧
     (perform_stellar_evolution samp ev pop).c_observables = none) ∧
    (∀ r, perform_galactic_evolution identify integrate order samp ev pop =
        .ok r →
      r.c_final_coords = none ∧ r.c_observables = none) := by
  refine ⟨⟨(pse_caches samp ev pop).1, (pse_caches samp ev pop).2.1⟩, ?_⟩
  intro r hr
  have h0 := bppRead_caches samp ev
    { pop with c_final_coords := none, c_observables := none } rfl rfl
  have h1 := kickRead_caches samp ev _ h0.1 h0.2
  simp only [perform_galactic_evolution] at hr
  split at hr
  · exact absurd hr (by simp)
  · split at hr
    · cases hr
      exact ⟨h1.1, h1.2⟩
    · split at hr <;>
        · cases hr
          exact ⟨h1.1, h1.2⟩

theorem cache_invalidation_amended_witness :
    (perform_stellar_evolution sampEx evEx popEx).c_final_bpp = none ∧
    ∃ r, perform_galactic_evolution (fun _ _ _ => 0) (fun _ => none) [0]
        sampEx evEx popEx = .ok r ∧ r.c_final_coords = none := by
  have h := cache_invalidation_amended (fun _ _ _ => 0) (fun _ => none) [0]
    sampEx evEx popEx
  refine ⟨h.1.1, ?_⟩
  cases hE : perform_galactic_evolution (fun _ _ _ => 0) (fun _ => none) [0]
      sampEx evEx popEx with
  | error e =>
    cases e
    exact absurd hE (by decide)
  | ok r => exact ⟨r, rfl, (h.2 r hE).1⟩

/-! ### C1: the quarantine count -/


/-- **C1 (code bug).** On `popC1`/`evC1` stellar evolution produces
non-finite output for exactly `N = 1` distinct binary, yet
`perform_stellar_evolution` decrements `n_binaries_match` by
`len(nan_bin_nums) = 2` (binary 0 is counted once from the `bpp` check
and once from the `kick_info` check): the count drops from 2 to 0 and
`initial_galaxy._size` to 0, while exactly one binary was removed and all
retained tables/arrays still hold the surviving binary 1. The claim's
"decreases `n_binaries_match` by exactly N" fails, and the resulting count
disagrees with the lengths of the very arrays it is supposed to
describe. -/
theorem quarantine_miscount :
    nanBinNums evC1.bpp evC1.kick_info = [0, 0] ∧
    (perform_stellar_evolution sampEx evC1 popC1).n_binaries_match = 0 ∧
    (perform_stellar_evolution sampEx evC1 popC1).c_bpp =
      some [⟨1, .val 1, []⟩] ∧
    ((perform_stellar_evolution sampEx evC1 popC1).initial_galaxy.getD
      default).tau.length = 1 ∧
    ((perform_stellar_evolution sampEx evC1 popC1).initial_galaxy.getD
      default).size = 0 := by
  refine ⟨rfl, by decide, rfl, rfl, by decide⟩

/-! ### C9: what the NaN detection looks at -/

/-- Filtering by "not quarantined" keeps every row of a binary that is not
in the removal list, independently of the other rows. -/
theorem filter_keep_of_not_removed {α : Type} (key : α → ℕ) (l : List α)
    (nbn : List ℕ) (b : ℕ) (hb : b ∉ nbn) :
    (l.filter (fun r => !(nbn.contains (key r)))).filter
        (fun r => key r == b) =
      l.filter (fun r => key r == b) := by
  have hpt : ∀ a, ((key a == b) && !(nbn.contains (key a))) = (key a == b) := by
    intro a
    cases hkb : (key a == b) with
    | false => simp
    | true =>
      have hab : key a = b := eq_of_beq hkb
      have hc : nbn.contains (key a) = false := by
        rw [hab]
        cases hcc : nbn.contains b with
        | false => rfl
        | true => exact absurd ((contains_eq_true_iff nbn b).mp hcc) hb
      rw [hc]
      rfl
  rw [List.filter_filter]
  simp only [hpt]

theorem not_mem_nanBinNums (ev : EvolveOut) (b : ℕ)
    (h1 : ∀ r ∈ keepLast ev.bpp, r.bin_num = b → r.sep.isNan = false)
    (h2 : ∀ r ∈ ev.kick_info, r.bin_num = b → r.delta_vsysx_1.isNan = false) :
    b ∉ nanBinNums ev.bpp ev.kick_info := by
  intro hmem
  rcases List.mem_append.mp hmem with hm | hm
  · rcases List.mem_map.mp hm with ⟨r, hr, hrb⟩
    rcases List.mem_filter.mp hr with ⟨hrk, hrn⟩
    exact absurd hrn (by simp [h1 r hrk hrb])
  · rcases List.mem_map.mp hm with ⟨r, hr, hrb⟩
    rcases List.mem_filter.mp hr with ⟨hrk, hrn⟩
    exact absurd hrn (by simp [h2 r hrk hrb])

/-- **C9.** The NaN quarantine inspects only the `sep` column of each
binary's last `bpp` row and the `delta_vsysx_1` column of `kick_info`: a
binary `b` that is finite there — whatever NaNs its output carries in
other columns or in non-final rows — is not detected (not in
`nan_bin_nums`) and keeps all of its rows in all four stored tables, with
`n_binaries_match` decremented only for other binaries. -/
theorem nan_detection_scope (pop : Population) (samp : SamplerOut)
    (ev : EvolveOut) (b : ℕ)
    (h1 : ∀ r ∈ keepLast ev.bpp, r.bin_num = b → r.sep.isNan = false)
    (h2 : ∀ r ∈ ev.kick_info, r.bin_num = b → r.delta_vsysx_1.isNan = false) :
    b ∉ nanBinNums ev.bpp ev.kick_info ∧
    ∃ l1 l2 l3 l4,
      (perform_stellar_evolution samp ev pop).c_bpp = some l1 ∧
      (perform_stellar_evolution samp ev pop).c_bcm = some l2 ∧
      (perform_stellar_evolution samp ev pop).c_kick_info = some l3 ∧
      (perform_stellar_evolution samp ev pop).c_initC = some l4 ∧
      l1.filter (fun r => r.bin_num == b) =
        ev.bpp.filter (fun r => r.bin_num == b) ∧
      l2.filter (fun r => r.bin_num == b) =
        ev.bcm.filter (fun r => r.bin_num == b) ∧
      l3.filter (fun r => r.bin_num == b) =
        ev.kick_info.filter (fun r => r.bin_num == b) ∧
      l4.filter (fun r => r.bin_num == b) =
        ev.initC.filter (fun r => r.bin_num == b) := by
  have hb := not_mem_nanBinNums ev b h1 h2
  refine ⟨hb, ?_⟩
  have hcore : ∀ q : Population,
      ∃ l1 l2 l3 l4,
        (stellar_core ev q).c_bpp = some l1 ∧
        (stellar_core ev q).c_bcm = some l2 ∧
        (stellar_core ev q).c_kick_info = some l3 ∧
        (stellar_core ev q).c_initC = some l4 ∧
        l1.filter (fun r => r.bin_num == b) =
          ev.bpp.filter (fun r => r.bin_num == b) ∧
        l2.filter (fun r => r.bin_num == b) =
          ev.bcm.filter (fun r => r.bin_num == b) ∧
        l3.filter (fun r => r.bin_num == b) =
          ev.kick_info.filter (fun r => r.bin_num == b) ∧
        l4.filter (fun r => r.bin_num == b) =
          ev.initC.filter (fun r => r.bin_num == b) := by
    intro q
    by_cases h : q.pool = .pnone ∧ 1 < q.processes <;>
      · simp only [stellar_core, h, if_true, if_false, ite_true, ite_false]
        split
        · exact ⟨_, _, _, _, rfl, rfl, rfl, rfl,
            filter_keep_of_not_removed _ _ _ _ hb,
            filter_keep_of_not_removed _ _ _ _ hb,
            filter_keep_of_not_removed _ _ _ _ hb,
            filter_keep_of_not_removed _ _ _ _ hb⟩
        · exact ⟨ev.bpp, ev.bcm, ev.kick_info, ev.initC,
            rfl, rfl, rfl, rfl, rfl, rfl, rfl, rfl⟩
  obtain ⟨q, hq⟩ := pse_eq_core samp ev pop
  rw [hq]
  exact hcore q


/-- Binary 0 of `evC9` has NaNs in other columns (and in the `sep` of a
non-final row) but finite final `sep` and finite `delta_vsysx_1`, so it is
neither detected nor quarantined. -/
theorem nan_detection_scope_witness :
    0 ∉ nanBinNums evC9.bpp evC9.kick_info ∧
    ∃ l1 l2 l3 l4,
      (perform_stellar_evolution sampEx evC9 popC1).c_bpp = some l1 ∧
      (perform_stellar_evolution sampEx evC9 popC1).c_bcm = some l2 ∧
      (perform_stellar_evolution sampEx evC9 popC1).c_kick_info = some l3 ∧
      (perform_stellar_evolution sampEx evC9 popC1).c_initC = some l4 ∧
      l1.filter (fun r => r.bin_num == 0) =
        evC9.bpp.filter (fun r => r.bin_num == 0) ∧
      l2.filter (fun r => r.bin_num == 0) =
        evC9.bcm.filter (fun r => r.bin_num == 0) ∧
      l3.filter (fun r => r.bin_num == 0) =
        evC9.kick_info.filter (fun r => r.bin_num == 0) ∧
      l4.filter (fun r => r.bin_num == 0) =
        evC9.initC.filter (fun r => r.bin_num == 0) :=
  nan_detection_scope popC1 sampEx evC9 0 (by decide) (by decide)

/-! ### C10: the metallicity clamp -/

theorem map_met_zip_met (l : List InitRow) (zs : List ℚ)
    (h : zs.length = l.length) :
    (List.zipWith (fun r zq => { r with metallicity := zq }) l zs).map
      (fun r => r.metallicity) = zs := by
  induction l generalizing zs with
  | nil =>
    cases zs with
    | nil => rfl
    | cons z t => cases h
  | cons a t ih =>
    cases zs with
    | nil => cases h
    | cons z zt =>
      simp only [List.zipWith_cons_cons, List.map_cons]
      rw [ih zt (by simpa using h)]

theorem map_met_zip_tphysf (l : List InitRow) (ts : List ℚ)
    (h : ts.length = l.length) :
    (List.zipWith (fun r t => { r with tphysf := t }) l ts).map
      (fun r => r.metallicity) = l.map (fun r => r.metallicity) := by
  induction l generalizing ts with
  | nil => rfl
  | cons a t ih =>
    cases ts with
    | nil => cases h
    | cons z zt =>
      simp only [List.zipWith_cons_cons, List.map_cons]
      rw [ih zt (by simpa using h)]

theorem map_met_clamp_low (l : List InitRow) :
    (l.map (fun r =>
      if r.metallicity < clampLo then { r with metallicity := clampLo }
      else r)).map (fun r => r.metallicity) =
      (l.map (fun r => r.metallicity)).map
        (fun m => if m < clampLo then clampLo else m) := by
  induction l with
  | nil => rfl
  | cons a t ih =>
    simp only [List.map_cons]
    rw [ih]
    congr 1
    by_cases h : a.metallicity < clampLo <;> simp [h]

theorem map_met_clamp_high (l : List InitRow) :
    (l.map (fun r =>
      if clampHi < r.metallicity then { r with metallicity := clampHi }
      else r)).map (fun r => r.metallicity) =
      (l.map (fun r => r.metallicity)).map
        (fun m => if clampHi < m then clampHi else m) := by
  induction l with
  | nil => rfl
  | cons a t ih =>
    simp only [List.map_cons]
    rw [ih]
    congr 1
    by_cases h : clampHi < a.metallicity <;> simp [h]

/-- **C10.** After `sample_initial_binaries`, the metallicity column of
the binary table handed to stellar evolution is the drawn galaxy
metallicity clamped into `[1e-4, 0.03]` (low values raised to `1e-4`,
high values lowered to `0.03`), every entry lies in that range, and the
galaxy's own `Z` array keeps the original draw unmodified. -/
theorem metallicity_clamped (samp : SamplerOut) (pop : Population) (n : ℕ)
    (hn : n = (samp.initial_binaries.filter
      (fun r => pop.m1_cutoff ≤ r.mass_1)).length)
    (hZ : (samp.galaxyOf n).Z.length = n)
    (htau : (samp.galaxyOf n).tau.length = n) :
    ∃ bs g,
      (sample_initial_binaries samp pop).c_initial_binaries = some bs ∧
      (sample_initial_binaries samp pop).initial_galaxy = some g ∧
      g.Z = (samp.galaxyOf n).Z ∧
      bs.map (fun r => r.metallicity) = g.Z.map (fun zq =>
        if zq < clampLo then clampLo
        else if clampHi < zq then clampHi else zq) ∧
      (∀ r ∈ bs, clampLo ≤ r.metallicity ∧ r.metallicity ≤ clampHi) := by
  subst hn
  refine ⟨_, _, rfl, rfl, rfl, ?_, ?_⟩
  · set filtered := samp.initial_binaries.filter
      (fun r => pop.m1_cutoff ≤ r.mass_1) with hf
    set g0 := samp.galaxyOf filtered.length with hg0
    set b1 := List.zipWith (fun r zq => { r with metallicity := zq })
      filtered g0.Z with hb1
    have hlen1 : g0.tau.length = b1.length := by
      rw [hb1, List.length_zipWith, hZ, htau, min_self]
    rw [map_met_clamp_high, map_met_clamp_low, map_met_zip_tphysf _ _ hlen1,
      map_met_zip_met _ _ hZ, List.map_map]
    apply List.map_congr_left
    intro zq _
    by_cases h1 : zq < clampLo
    · have h2 : ¬clampHi < clampLo := by norm_num [clampLo, clampHi]
      simp [h1, h2, Function.comp]
    · simp [h1, Function.comp]
  · intro r hr
    rw [List.mem_map] at hr
    obtain ⟨r3, hr3, rfl⟩ := hr
    rw [List.mem_map] at hr3
    obtain ⟨r2, _, rfl⟩ := hr3
    have hlo : clampLo ≤ clampHi := by norm_num [clampLo, clampHi]
    by_cases h1 : r2.metallicity < clampLo
    · rw [if_pos h1]
      have h2 : ¬clampHi <
          ({ r2 with metallicity := clampLo } : InitRow).metallicity :=
        not_lt.mpr hlo
      rw [if_neg h2]
      exact ⟨le_refl _, hlo⟩
    · rw [if_neg h1]
      by_cases h2 : clampHi < r2.metallicity
      · rw [if_pos h2]
        exact ⟨hlo, le_refl _⟩
      · rw [if_neg h2]
        exact ⟨le_of_not_lt h1, le_of_not_lt h2⟩


/-! ### C6: lazy phase forcing -/

theorem stellar_core_sets (e : EvolveOut) (q : Population) :
    ∃ lb lk, (stellar_core e q).c_bpp = some lb ∧
      (stellar_core e q).c_kick_info = some lk := by
  by_cases h : q.pool = .pnone ∧ 1 < q.processes <;>
    · simp only [stellar_core, h, if_true, if_false, ite_true, ite_false]
      split
      · exact ⟨_, _, rfl, rfl⟩
      · exact ⟨_, _, rfl, rfl⟩

theorem stellar_core_pool (e : EvolveOut) (q : Population) :
    (stellar_core e q).pool =
      if q.pool = .pnone ∧ 1 < q.processes then .pclosed else q.pool := by
  by_cases h : q.pool = .pnone ∧ 1 < q.processes <;>
    · simp only [stellar_core, h, if_true, if_false, ite_true, ite_false]
      split <;> simp

theorem stellar_core_processes (e : EvolveOut) (q : Population) :
    (stellar_core e q).processes = q.processes := by
  by_cases h : q.pool = .pnone ∧ 1 < q.processes <;>
    · simp only [stellar_core, h, if_true, if_false, ite_true, ite_false]
      split <;> simp

/-- **C6.** Calling a later phase's trigger with missing prerequisites
first forces completion of the missing prior phase:
(a) `perform_stellar_evolution` on a population with no sampled binaries
(and no `initC` fallback) first performs `sample_initial_binaries` — its
run is exactly the solver batch applied to the freshly sampled
population, whose sampler outputs (e.g. `mass_singles`) are then present;
(b) reading the `orbits` property with no orbits and no stellar-evolution
output first performs stellar evolution — the returned population carries
exactly the `bpp` that `perform_stellar_evolution` produces (a filled
cache) — before the orbit integration proceeds and fills the orbits. -/
theorem lazy_phase_forcing :
    (∀ (samp : SamplerOut) (ev : EvolveOut) (pop : Population),
      pop.c_initial_binaries = none → pop.c_initC = none →
      perform_stellar_evolution samp ev pop =
        stellar_core ev (sample_initial_binaries samp
          { pop with c_final_bpp := none, c_observables := none }) ∧
      (perform_stellar_evolution samp ev pop).c_mass_singles =
        some samp.mass_singles) ∧
    (∀ (identify : List BppRow → List KickRow → ℕ → ℕ)
      (integrate : GalArgs → Option Orbit) (order : List ℕ)
      (samp : SamplerOut) (ev : EvolveOut) (pop : Population)
      (ib : List InitRow),
      pop.c_orbits = none → pop.c_bpp = none →
      pop.c_initial_binaries = some ib →
      pop.pool = .pnone → pop.processes ≤ 1 →
      ∃ r l, orbits_prop identify integrate order samp ev pop = .ok (r, l) ∧
        r.c_bpp = (perform_stellar_evolution samp ev
          { pop with c_final_coords := none, c_observables := none }).c_bpp ∧
        r.c_bpp ≠ none ∧ r.c_orbits = some l) := by
  constructor
  · intro samp ev pop h1 h2
    have heq : perform_stellar_evolution samp ev pop =
        stellar_core ev (sample_initial_binaries samp
          { pop with c_final_bpp := none, c_observables := none }) := by
      simp only [perform_stellar_evolution]
      rw [if_pos ⟨h1, h2⟩]
    refine ⟨heq, ?_⟩
    rw [heq, (stellar_core_caches ev _).2.2.2]
    rfl
  · intro identify integrate order samp ev pop ib ho hb hib hpool hproc
    have hc1 : ¬(pop.c_initial_binaries = none ∧ pop.c_initC = none) := by
      simp [hib]
    have hc2 : ¬pop.c_initial_binaries = none := by simp [hib]
    have hA : ({ pop with
        c_final_coords := none
        c_observables := none } : Population) =
        { pop with
            c_bpp := none
            c_final_coords := none
            c_observables := none } := by
      simp only [hb]
    have hq : perform_stellar_evolution samp ev
        { pop with
            c_bpp := none
            c_final_coords := none
            c_observables := none } =
        stellar_core ev
          { pop with
              c_bpp := none
              c_final_coords := none
              c_final_bpp := none
              c_observables := none } := by
      simp only [perform_stellar_evolution]
      rw [if_neg hc1, if_neg hc2]
    obtain ⟨lb, lk, hqb, hqk⟩ := stellar_core_sets ev
      { pop with
          c_bpp := none
          c_final_coords := none
          c_final_bpp := none
          c_observables := none }
    have hqpool : (stellar_core ev
        { pop with
            c_bpp := none
            c_final_coords := none
            c_final_bpp := none
            c_observables := none }).pool = PoolState.pnone := by
      rw [stellar_core_pool]
      rw [if_neg (fun h => (not_lt.mpr hproc) h.2)]
      exact hpool
    have hqproc : ¬1 < (stellar_core ev
        { pop with
            c_bpp := none
            c_final_coords := none
            c_final_bpp := none
            c_observables := none }).processes := by
      rw [stellar_core_processes]
      exact not_lt.mpr hproc
    have hnot1 : ¬((stellar_core ev
        { pop with
            c_bpp := none
            c_final_coords := none
            c_final_bpp := none
            c_observables := none }).pool = PoolState.pclosed) := by
      simp [hqpool]
    have hnot2 : ¬((stellar_core ev
        { pop with
            c_bpp := none
            c_final_coords := none
            c_final_bpp := none
            c_observables := none }).pool = PoolState.popen) := by
      simp [hqpool]
    have hpge : ∃ X, perform_galactic_evolution identify integrate order
        samp ev pop = .ok { (stellar_core ev
          { pop with
              c_bpp := none
              c_final_coords := none
              c_final_bpp := none
              c_observables := none }) with c_orbits := some X } := by
      apply Exists.intro
      simp only [perform_galactic_evolution, bppRead, kickRead, hb, hq, hqk]
      rw [if_neg hnot1, if_neg hnot2, if_neg hqproc]
    obtain ⟨X, hX⟩ := hpge
    refine ⟨{ (stellar_core ev
      { pop with
          c_bpp := none
          c_final_coords := none
          c_final_bpp := none
          c_observables := none }) with c_orbits := some X },
      X, ?_, ?_, ?_, rfl⟩
    · simp only [orbits_prop, ho, hX, Option.getD_some]
    · rw [hA, hq]
    · simp [hqb]

theorem lazy_phase_forcing_witness :
    (perform_stellar_evolution sampC10 evEx popC6 =
      stellar_core evEx (sample_initial_binaries sampC10
        { popC6 with c_final_bpp := none, c_observables := none }) ∧
     (perform_stellar_evolution sampC10 evEx popC6).c_mass_singles =
       some sampC10.mass_singles) ∧
    (∃ r l, orbits_prop identifyEx integrateC2 [0] sampEx evEx popC6b =
        .ok (r, l) ∧
      r.c_bpp = (perform_stellar_evolution sampEx evEx
        { popC6b with
            c_final_coords := none
            c_observables := none }).c_bpp ∧
      r.c_bpp ≠ none ∧ r.c_orbits = some l) :=
  ⟨lazy_phase_forcing.1 sampC10 evEx popC6 rfl rfl,
   lazy_phase_forcing.2 identifyEx integrateC2 [0] sampEx evEx popC6b
     [⟨0, 10, 1/100, 2000, []⟩] rfl rfl rfl rfl (by decide)⟩

/-! ### C4: the save/load round trip -/

theorem lookup_append (k : String) (l1 l2 : List (String × BSEVal)) :
    List.lookup k (l1 ++ l2) =
      match List.lookup k l1 with
      | some v => some v
      | none => List.lookup k l2 := by
  induction l1 with
  | nil => simp [List.lookup]
  | cons e t ih =>
    obtain ⟨a, v⟩ := e
    by_cases hka : k = a
    · subst hka
      simp [List.lookup]
    · have hbq : (k == a) = false := beq_eq_false_iff_ne.mpr hka
      simp [List.lookup, hbq, ih]

theorem lookup_eq_none_iff (k : String) (l : List (String × BSEVal)) :
    List.lookup k l = none ↔ k ∉ l.map Prod.fst := by
  induction l with
  | nil => simp [List.lookup]
  | cons e t ih =>
    obtain ⟨a, v⟩ := e
    by_cases hka : k = a
    · subst hka
      simp [List.lookup]
    · have hbq : (k == a) = false := beq_eq_false_iff_ne.mpr hka
      simp [List.lookup, hbq, ih, hka]

/-- Replacing the entries keyed `k'` (which occurs in `d`) is invisible to
every other lookup and makes `k'` resolve to the new value. -/
theorem lookup_replaceAll (d : List (String × BSEVal)) (k k' : String)
    (v : BSEVal) (hmem : k' ∈ d.map Prod.fst) :
    List.lookup k (d.map (fun e => if e.1 == k' then (k', v) else e)) =
      if k = k' then some v else List.lookup k d := by
  induction d with
  | nil => simp at hmem
  | cons e t ih =>
    obtain ⟨a, w⟩ := e
    simp only [List.map_cons]
    by_cases hak : a = k'
    · subst hak
      rw [show (((a, w) : String × BSEVal).1 == a) = true from
        beq_self_eq_true a]
      simp only [if_true, ite_true]
      by_cases hkk : k = a
      · subst hkk
        simp [List.lookup]
      · have hbq : (k == a) = false := beq_eq_false_iff_ne.mpr hkk
        have hstep : List.lookup k (((a, v) : String × BSEVal) ::
            t.map (fun e => if e.1 == a then (a, v) else e)) =
            List.lookup k (t.map (fun e =>
              if e.1 == a then (a, v) else e)) := by
          simp [List.lookup, hbq]
        by_cases hmem2 : a ∈ t.map Prod.fst
        · rw [hstep, ih hmem2, if_neg hkk, if_neg hkk]
          simp [List.lookup, hbq]
        · have hpt : ∀ e ∈ t, (if e.1 == a then ((a, v) : String × BSEVal)
              else e) = e := by
            intro e he
            have hne : (e.1 == a) = false := by
              refine beq_eq_false_iff_ne.mpr ?_
              intro hcon
              exact hmem2 (List.mem_map.mpr ⟨e, he, hcon⟩)
            rw [hne]
            simp
          have hid : t.map (fun e =>
              if e.1 == a then ((a, v) : String × BSEVal) else e) = t := by
            calc t.map (fun e =>
                  if e.1 == a then ((a, v) : String × BSEVal) else e)
                = t.map id := List.map_congr_left (by
                    intro e he
                    rw [hpt e he]
                    rfl)
              _ = t := List.map_id t
          rw [hstep, hid, if_neg hkk]
          simp [List.lookup, hbq]
    · have hbq2 : (((a, w) : String × BSEVal).1 == k') = false :=
        beq_eq_false_iff_ne.mpr hak
      rw [show (if ((a, w) : String × BSEVal).1 == k'
          then ((k', v) : String × BSEVal) else (a, w)) = (a, w) from by
        rw [hbq2]; simp]
      have hmem2 : k' ∈ t.map Prod.fst := by
        rcases List.mem_map.mp hmem with ⟨e, he, hek⟩
        rcases List.mem_cons.mp he with he1 | he1
        · rw [he1] at hek
          exact absurd hek hak
        · exact List.mem_map.mpr ⟨e, he1, hek⟩
      by_cases hka : k = a
      · subst hka
        have hkk : ¬k = k' := fun h => hak h
        rw [if_neg hkk]
        simp [List.lookup]
      · have hbq3 : (k == a) = false := beq_eq_false_iff_ne.mpr hka
        rw [show List.lookup k (((a, w) : String × BSEVal) ::
            t.map (fun e => if e.1 == k' then (k', v) else e)) =
            List.lookup k (t.map (fun e =>
              if e.1 == k' then (k', v) else e)) from by
            simp [List.lookup, hbq3]]
        rw [ih hmem2]
        by_cases hkk : k = k'
        · rw [if_pos hkk, if_pos hkk]
        · rw [if_neg hkk, if_neg hkk]
          simp [List.lookup, hbq3]

/-- Python `dict.update` of one pair, seen through `lookup`. -/
theorem lookup_dictUpd (d : List (String × BSEVal)) (k k' : String)
    (v : BSEVal) :
    List.lookup k (dictUpd d (k', v)) =
      if k = k' then some v else List.lookup k d := by
  unfold dictUpd
  by_cases hmem : k' ∈ d.map Prod.fst
  · have hany : d.any (fun e => e.1 == k') = true := by
      rw [List.any_eq_true]
      rcases List.mem_map.mp hmem with ⟨e, he, hek⟩
      exact ⟨e, he, by simp [hek]⟩
    rw [if_pos hany]
    exact lookup_replaceAll d k k' v hmem
  · have hany : d.any (fun e => e.1 == k') = false := by
      by_contra hcon
      rw [Bool.not_eq_false, List.any_eq_true] at hcon
      rcases hcon with ⟨e, he, hek⟩
      exact hmem (List.mem_map.mpr ⟨e, he, eq_of_beq hek⟩)
    rw [if_neg (by simp [hany])]
    rw [lookup_append]
    by_cases hkk : k = k'
    · subst hkk
      rw [(lookup_eq_none_iff k d).mpr hmem]
      simp [List.lookup]
    · have hbq : (k == k') = false := beq_eq_false_iff_ne.mpr hkk
      rw [if_neg hkk]
      cases h : List.lookup k d with
      | some v2 => rfl
      | none => simp [List.lookup, hbq]

/-- `dict.update` of a whole dict, seen through `lookup`: keys of the
update win (its last occurrence), everything else falls back to `d`. -/
theorem lookup_dictUpds (d s : List (String × BSEVal)) (k : String) :
    List.lookup k (dictUpds d s) =
      if k ∈ s.map Prod.fst then List.lookup k s.reverse
      else List.lookup k d := by
  induction s generalizing d with
  | nil => simp [dictUpds]
  | cons e t ih =>
    obtain ⟨k0, v0⟩ := e
    show List.lookup k (dictUpds (dictUpd d (k0, v0)) t) = _
    rw [ih, lookup_dictUpd]
    by_cases hkt : k ∈ t.map Prod.fst
    · rw [if_pos hkt, if_pos (by simp [hkt]), List.reverse_cons,
        lookup_append]
      cases h : List.lookup k t.reverse with
      | some v => rfl
      | none =>
        rw [lookup_eq_none_iff, List.map_reverse, List.mem_reverse] at h
        exact absurd hkt h
    · rw [if_neg hkt]
      by_cases hk0 : k = k0
      · subst hk0
        rw [if_pos rfl, if_pos (by simp), List.reverse_cons, lookup_append]
        cases h : List.lookup k t.reverse with
        | some v =>
          have : List.lookup k t.reverse = none := by
            rw [lookup_eq_none_iff, List.map_reverse, List.mem_reverse]
            exact hkt
          rw [this] at h
          cases h
        | none => simp [List.lookup]
      · rw [if_neg hk0, if_neg (by simp [hkt, hk0])]

theorem lookup_reverse_of_nodup (k : String)
    (l : List (String × BSEVal)) (h : (l.map Prod.fst).Nodup) :
    List.lookup k l.reverse = List.lookup k l := by
  induction l with
  | nil => rfl
  | cons e t ih =>
    obtain ⟨a, w⟩ := e
    simp only [List.map_cons, List.nodup_cons] at h
    obtain ⟨ha, ht⟩ := h
    rw [List.reverse_cons, lookup_append, ih ht]
    by_cases hka : k = a
    · subst hka
      rw [(lookup_eq_none_iff k t).mpr ha]
      simp [List.lookup]
    · have hbq : (k == a) = false := beq_eq_false_iff_ne.mpr hka
      cases h2 : List.lookup k t with
      | some v => simp [List.lookup, hbq, h2]
      | none => simp [List.lookup, hbq, h2]

/-- Re-applying the default dict under an update whose keys cover the
defaults changes no lookup: exactly the round-trip situation of the
constructor call in `load`. -/
theorem lookup_dictUpds_superset (d s : List (String × BSEVal)) (k : String)
    (hsub : ∀ a ∈ d.map Prod.fst, a ∈ s.map Prod.fst)
    (hnd : (s.map Prod.fst).Nodup) :
    List.lookup k (dictUpds d s) = List.lookup k s := by
  rw [lookup_dictUpds]
  by_cases hk : k ∈ s.map Prod.fst
  · rw [if_pos hk, lookup_reverse_of_nodup k s hnd]
  · rw [if_neg hk, (lookup_eq_none_iff k d).mpr (fun h => hk (hsub _ h)),
      ((lookup_eq_none_iff k s).mpr hk).symm]

theorem pyInt_intCast (z : ℤ) : pyInt ((z : ℚ)) = z := by
  unfold pyInt
  by_cases h : (0 : ℚ) ≤ (z : ℚ)
  · rw [if_pos h, Int.floor_intCast]
  · rw [if_neg h, Int.ceil_intCast]

/-- **C4.** (spec-modelled `galaxy.save`/`galaxy.load`.) For a fully
evolved population, `save(file_name)` followed by `load(file_name)`
reconstructs a population whose scalar parameters, four tables, potential
description, initial-galaxy data, BSE settings (as a key/value mapping)
and orbits array — missing-orbit sentinels included — are identical to
the saved object's. -/
theorem save_load_roundtrip (fs : FS) (name : FileName) (p : Population)
    (bpp : List BppRow) (bcm : List BcmRow) (initC : List InitRow)
    (ki : List KickRow) (orbits : List (Option Orbit))
    (ms mb nsr nbr : ℚ) (g : InitialGalaxy)
    (h1 : p.c_bpp = some bpp) (h2 : p.c_bcm = some bcm)
    (h3 : p.c_initC = some initC) (h4 : p.c_kick_info = some ki)
    (h5 : p.c_orbits = some orbits) (h6 : p.c_mass_singles = some ms)
    (h7 : p.c_mass_binaries = some mb) (h8 : p.c_n_singles_req = some nsr)
    (h9 : p.c_n_bin_req = some nbr) (h10 : p.initial_galaxy = some g)
    (hfree : fs.lookup (munge name) = none)
    (hsub : ∀ a ∈ defaultBSE.map Prod.fst, a ∈ p.BSE_settings.map Prod.fst)
    (hnd : (p.BSE_settings.map Prod.fst).Nodup) :
    (save fs name false p).1 = none ∧
    ∃ q, load (save fs name false p).2 name = some q ∧
      q.n_binaries = p.n_binaries ∧
      q.n_binaries_match = p.n_binaries_match ∧
      q.processes = p.processes ∧
      q.m1_cutoff = p.m1_cutoff ∧
      q.v_dispersion = p.v_dispersion ∧
      q.max_ev_time = p.max_ev_time ∧
      q.timestep_size = p.timestep_size ∧
      q.c_mass_singles = p.c_mass_singles ∧
      q.c_mass_binaries = p.c_mass_binaries ∧
      q.c_n_singles_req = p.c_n_singles_req ∧
      q.c_n_bin_req = p.c_n_bin_req ∧
      q.final_kstar1 = p.final_kstar1 ∧
      q.final_kstar2 = p.final_kstar2 ∧
      q.c_bpp = p.c_bpp ∧
      q.c_bcm = p.c_bcm ∧
      q.c_initC = p.c_initC ∧
      q.c_kick_info = p.c_kick_info ∧
      q.galactic_potential = p.galactic_potential ∧
      q.initial_galaxy = p.initial_galaxy ∧
      (∀ k, q.BSE_settings.lookup k = p.BSE_settings.lookup k) ∧
      q.c_orbits = p.c_orbits := by
  have hsd : saveData p = some
      { bpp := bpp, bcm := bcm, initC := initC, kick_info := ki,
        potential_txt := p.galactic_potential, initial_galaxy_ds := g,
        orbits_npy := orbits,
        numeric_params := [(p.n_binaries : ℚ), (p.n_binaries_match : ℚ),
          (p.processes : ℚ), p.m1_cutoff, p.v_dispersion, p.max_ev_time,
          p.timestep_size, ms, mb, nsr, nbr],
        k_stars := (p.final_kstar1, p.final_kstar2),
        bse := p.BSE_settings } := by
    simp [saveData, h1, h2, h3, h4, h5, h6, h7, h8, h9, h10]
  have hsave : save fs name false p = (none, (munge name,
      ({ bpp := bpp, bcm := bcm, initC := initC, kick_info := ki,
         potential_txt := p.galactic_potential, initial_galaxy_ds := g,
         orbits_npy := orbits,
         numeric_params := [(p.n_binaries : ℚ), (p.n_binaries_match : ℚ),
           (p.processes : ℚ), p.m1_cutoff, p.v_dispersion, p.max_ev_time,
           p.timestep_size, ms, mb, nsr, nbr],
         k_stars := (p.final_kstar1, p.final_kstar2),
         bse := p.BSE_settings } : SavedFiles)) :: fs) := by
    simp only [save]
    rw [if_neg (by simp [hfree])]
    simp only [writeOut, hsd]
  refine ⟨by rw [hsave], ?_⟩
  apply Exists.intro
  constructor
  · rw [hsave]
    simp only [load, List.lookup]
    rw [beq_self_eq_true]
  · refine ⟨?_, ?_, ?_, rfl, rfl, rfl, rfl, ?_, ?_, ?_, ?_, rfl, rfl,
      ?_, ?_, ?_, ?_, rfl, ?_, ?_, ?_⟩
    · exact pyInt_intCast p.n_binaries
    · exact pyInt_intCast p.n_binaries_match
    · exact pyInt_intCast p.processes
    · rw [h6]
      rfl
    · rw [h7]
      rfl
    · rw [h8]
      rfl
    · rw [h9]
      rfl
    · rw [h1]
    · rw [h2]
    · rw [h3]
    · rw [h4]
    · rw [h10]
    · intro k
      exact lookup_dictUpds_superset defaultBSE p.BSE_settings k hsub hnd
    · rw [h5]

theorem save_load_roundtrip_witness :
    (save [] ['a'] false popEx).1 = none ∧
    ∃ q, load (save [] ['a'] false popEx).2 ['a'] = some q ∧
      q.n_binaries = popEx.n_binaries ∧
      q.n_binaries_match = popEx.n_binaries_match ∧
      q.processes = popEx.processes ∧
      q.m1_cutoff = popEx.m1_cutoff ∧
      q.v_dispersion = popEx.v_dispersion ∧
      q.max_ev_time = popEx.max_ev_time ∧
      q.timestep_size = popEx.timestep_size ∧
      q.c_mass_singles = popEx.c_mass_singles ∧
      q.c_mass_binaries = popEx.c_mass_binaries ∧
      q.c_n_singles_req = popEx.c_n_singles_req ∧
      q.c_n_bin_req = popEx.c_n_bin_req ∧
      q.final_kstar1 = popEx.final_kstar1 ∧
      q.final_kstar2 = popEx.final_kstar2 ∧
      q.c_bpp = popEx.c_bpp ∧
      q.c_bcm = popEx.c_bcm ∧
      q.c_initC = popEx.c_initC ∧
      q.c_kick_info = popEx.c_kick_info ∧
      q.galactic_potential = popEx.galactic_potential ∧
      q.initial_galaxy = popEx.initial_galaxy ∧
      (∀ k, q.BSE_settings.lookup k = popEx.BSE_settings.lookup k) ∧
      q.c_orbits = popEx.c_orbits :=
  save_load_roundtrip [] ['a'] popEx [⟨0, .val 1, []⟩] [⟨0, []⟩]
    [⟨0, 10, 1/100, 2000, []⟩] [⟨0, .val 0, []⟩] [none] 100 200 3 4 galaxyEx
    rfl rfl rfl rfl rfl rfl rfl rfl rfl rfl rfl (by decide) (by decide)

/-! ### C2 and C5: the worker pool -/

theorem lookup_map_self (f : ℕ → Option Orbit) (order : List ℕ) (i : ℕ)
    (h : i ∈ order) :
    List.lookup i (order.map (fun j => (j, f j))) = some (f i) := by
  induction order with
  | nil => cases h
  | cons a t ih =>
    by_cases hia : i = a
    · subst hia
      simp [List.lookup]
    · have hmem : i ∈ t := by
        rcases List.mem_cons.mp h with h1 | h1
        · exact absurd h1 hia
        · exact h1
      have hbeq : (i == a) = false := beq_eq_false_iff_ne.mpr hia
      simp [List.lookup, hbeq, ih hmem]

/-- Aggregating tagged worker results by input index recovers the plain
in-order map whenever every index was completed (in any order). -/
theorem gatherByIndex_perm (f : ℕ → Option Orbit) (order : List ℕ) (n : ℕ)
    (h : order.Perm (List.range n)) :
    gatherByIndex f order n = (List.range n).map f := by
  show (List.range n).map
      (fun i => ((order.map (fun j => (j, f j))).lookup i).getD none) =
    (List.range n).map f
  apply List.map_congr_left
  intro i hi
  rw [lookup_map_self f order i (h.mem_iff.mpr hi)]
  rfl

/-- When the `bpp`/`kick_info` caches are already filled and the stored
pool is not a closed one, `perform_galactic_evolution` completes and the
aggregated orbits are the in-input-order map of the per-binary integrator
over all binary indices — in the pool branches via `gatherByIndex` and a
completion-order permutation, in the sequential branch directly. -/
theorem pge_cached_orbits (identify : List BppRow → List KickRow → ℕ → ℕ)
    (integrate : GalArgs → Option Orbit) (order : List ℕ)
    (samp : SamplerOut) (ev : EvolveOut) (pop : Population)
    (b : List BppRow) (ki : List KickRow)
    (hb : pop.c_bpp = some b) (hk : pop.c_kick_info = some ki)
    (hperm : order.Perm (List.range pop.n_binaries_match.toNat))
    (hpool : pop.pool ≠ .pclosed) :
    ∃ r, perform_galactic_evolution identify integrate order samp ev pop =
        .ok r ∧
      r.c_orbits = some ((List.range pop.n_binaries_match.toNat).map
        (binInt identify integrate pop b ki)) ∧
      r.n_binaries_match = pop.n_binaries_match := by
  simp only [perform_galactic_evolution, bppRead, kickRead, hb, hk]
  split_ifs with h1 h2 h3
  · exact absurd h1 hpool
  · exact ⟨_, rfl, by
      rw [gatherByIndex_perm _ _ _ hperm]
      rfl, rfl⟩
  · exact ⟨_, rfl, by
      rw [gatherByIndex_perm _ _ _ hperm]
      rfl, rfl⟩
  · exact ⟨_, rfl, rfl, rfl⟩

/-- **C2.** (spec-modelled `integrate_orbit_with_events`.) If the
integration of exactly one binary `i` fails — yielding the missing
marker — `perform_galactic_evolution` still completes the whole batch:
the aggregated orbits array has the full length, holds `none` at index
`i`, and every other binary's result sits at its original index. -/
theorem galactic_single_failure
    (identify : List BppRow → List KickRow → ℕ → ℕ)
    (integrate : GalArgs → Option Orbit) (order : List ℕ)
    (samp : SamplerOut) (ev : EvolveOut) (pop : Population)
    (b : List BppRow) (ki : List KickRow) (i : ℕ)
    (hb : pop.c_bpp = some b) (hk : pop.c_kick_info = some ki)
    (hpool : pop.pool ≠ .pclosed)
    (hperm : order.Perm (List.range pop.n_binaries_match.toNat))
    (hi : i < pop.n_binaries_match.toNat)
    (hfail : binInt identify integrate pop b ki i = none)
    (_hok : ∀ j, j < pop.n_binaries_match.toNat → j ≠ i →
      binInt identify integrate pop b ki j ≠ none) :
    ∃ r l, perform_galactic_evolution identify integrate order samp ev pop =
        .ok r ∧
      r.c_orbits = some l ∧
      l.length = pop.n_binaries_match.toNat ∧
      l[i]? = some none ∧
      ∀ j, j < pop.n_binaries_match.toNat → j ≠ i →
        l[j]? = some (binInt identify integrate pop b ki j) := by
  obtain ⟨r, hr, ho, hn⟩ :=
    pge_cached_orbits identify integrate order samp ev pop b ki hb hk
      hperm hpool
  refine ⟨r, _, hr, ho, ?_, ?_, ?_⟩
  · simp
  · rw [List.getElem?_map, List.getElem?_range hi, Option.map_some', hfail]
  · intro j hj hne
    rw [List.getElem?_map, List.getElem?_range hj, Option.map_some']

theorem galactic_single_failure_witness :
    ∃ r l, perform_galactic_evolution identifyEx integrateC2 [1, 0]
        sampEx evEx popC2 = .ok r ∧
      r.c_orbits = some l ∧ l.length = 2 ∧ l[0]? = some none ∧
      ∀ j, j < 2 → j ≠ 0 →
        l[j]? = some (binInt identifyEx integrateC2 popC2
          [⟨0, .val 1, []⟩] [⟨0, .val 0, []⟩] j) :=
  galactic_single_failure identifyEx integrateC2 [1, 0] sampEx evEx popC2
    [⟨0, .val 1, []⟩] [⟨0, .val 0, []⟩] 0 rfl rfl (by decide) (by decide)
    (by decide) (by decide) (by decide)

/-- **C5.** Running `perform_galactic_evolution` in the worker-pool
configuration (a live pool, or more than one process) produces, for every
worker completion order, exactly the orbits sequence of the
single-process sequential run, in input index order. -/
theorem parallel_matches_sequential
    (identify : List BppRow → List KickRow → ℕ → ℕ)
    (integrate : GalArgs → Option Orbit) (order : List ℕ)
    (samp : SamplerOut) (ev : EvolveOut) (pop : Population)
    (b : List BppRow) (ki : List KickRow)
    (hb : pop.c_bpp = some b) (hk : pop.c_kick_info = some ki)
    (hpar : pop.pool = .popen ∨ (pop.pool = .pnone ∧ 1 < pop.processes))
    (hperm : order.Perm (List.range pop.n_binaries_match.toNat)) :
    ∃ r1 r2,
      perform_galactic_evolution identify integrate order samp ev pop =
        .ok r1 ∧
      perform_galactic_evolution identify integrate order samp ev
        { pop with processes := 1, pool := .pnone } = .ok r2 ∧
      r1.c_orbits = r2.c_orbits := by
  have hpool : pop.pool ≠ .pclosed := by
    rcases hpar with h | ⟨h, _⟩ <;> simp [h]
  obtain ⟨r1, hr1, ho1, _⟩ :=
    pge_cached_orbits identify integrate order samp ev pop b ki hb hk
      hperm hpool
  obtain ⟨r2, hr2, ho2, _⟩ :=
    pge_cached_orbits identify integrate order samp ev
      { pop with processes := 1, pool := .pnone } b ki hb hk hperm
      (by simp)
  refine ⟨r1, r2, hr1, hr2, ?_⟩
  rw [ho1, ho2]
  rfl

theorem parallel_matches_sequential_witness :
    ∃ r1 r2,
      perform_galactic_evolution identifyEx integrateC2 [1, 0] sampEx evEx
        popC5 = .ok r1 ∧
      perform_galactic_evolution identifyEx integrateC2 [1, 0] sampEx evEx
        { popC5 with processes := 1, pool := .pnone } = .ok r2 ∧
      r1.c_orbits = r2.c_orbits :=
  parallel_matches_sequential identifyEx integrateC2 [1, 0] sampEx evEx
    popC5 [⟨0, .val 1, []⟩] [⟨0, .val 0, []⟩] rfl rfl
    (Or.inr ⟨rfl, by decide⟩) (by decide)

theorem metallicity_clamped_witness :
    ∃ bs g,
      (sample_initial_binaries sampC10 popEx).c_initial_binaries = some bs ∧
      (sample_initial_binaries sampC10 popEx).initial_galaxy = some g ∧
      g.Z = (sampC10.galaxyOf 1).Z ∧
      bs.map (fun r => r.metallicity) = g.Z.map (fun zq =>
        if zq < clampLo then clampLo
        else if clampHi < zq then clampHi else zq) ∧
      (∀ r ∈ bs, clampLo ≤ r.metallicity ∧ r.metallicity ≤ clampHi) :=
  metallicity_clamped sampC10 popEx 1 (by decide) (by decide) (by decide)

end Kicker
